import Mathlib

/-!
Verification of the two-number arithmetic API (`src/main.py`).

The source is a FastAPI service: a pure evaluator `compute(a, b, op)` over
Python floats, wrapped by HTTP endpoints (`GET /calc`, `POST /calc/{op}`,
and shortcut endpoints `POST /add`, `/sub`, `/mul`, `/div`).

Python floats (IEEE-754 binary64) are shallowly embedded as the inductive
type `PyFloat`: a finite value carries an exact rational, and the special
values `inf`, `negInf`, `nan` are explicit constructors.  Arithmetic on
finite values is exact rational arithmetic followed by an overflow check at
magnitude `2 ^ 1024` (the binary64 overflow boundary): a result of magnitude
at least `2 ^ 1024` becomes a signed infinity, as in IEEE-754.  In-range
rounding is elided (results stay exact rationals); no claim below depends on
in-range rounding, only on the exact arithmetic, the special values and the
overflow behaviour.
-/

/-- Decidable equality for `Except`, for evaluating handlers on concrete
inputs. -/
instance {ε α : Type} [DecidableEq ε] [DecidableEq α] :
    DecidableEq (Except ε α) := fun x y =>
  match x, y with
  | .ok a, .ok b =>
      if h : a = b then .isTrue (by rw [h]) else .isFalse (by simp [h])
  | .error e, .error f =>
      if h : e = f then .isTrue (by rw [h]) else .isFalse (by simp [h])
  | .ok _, .error _ => .isFalse (by simp)
  | .error _, .ok _ => .isFalse (by simp)

namespace Main

/-- Shallow embedding of a Python float: an exact finite rational, or one of
the IEEE-754 special values. -/
inductive PyFloat where
  | finite (q : ℚ)
  | inf
  | negInf
  | nan
deriving DecidableEq

/-- Embedding of `math.isfinite` (`src/main.py` line 28/112). -/
def PyFloat.isfinite : PyFloat → Bool
  | .finite _ => true
  | _ => false

/-- The binary64 overflow boundary `2 ^ 1024`. -/
def overflowBound : ℚ := 2 ^ 1024

/-- Packs an exact rational result of a float operation back into a
`PyFloat`, overflowing to a signed infinity at magnitude `2 ^ 1024` as
IEEE-754 binary64 does.  In-range rounding is elided. -/
def roundF (q : ℚ) : PyFloat :=
  if overflowBound ≤ q then .inf
  else if q ≤ -overflowBound then .negInf
  else .finite q

/-- Negation of a Python float. -/
def PyFloat.neg : PyFloat → PyFloat
  | .finite q => .finite (-q)
  | .inf => .negInf
  | .negInf => .inf
  | .nan => .nan

/-- Python float addition `a + b` (IEEE-754 semantics over the embedding). -/
def fadd (x y : PyFloat) : PyFloat :=
  match x, y with
  | .finite p, .finite q => roundF (p + q)
  | .nan, _ | _, .nan => .nan
  | .inf, .negInf | .negInf, .inf => .nan
  | .inf, _ | _, .inf => .inf
  | _, _ => .negInf

/-- Python float subtraction `a - b`, as addition of the negation. -/
def fsub (x y : PyFloat) : PyFloat :=
  fadd x y.neg

/-- Python float multiplication `a * b` (IEEE-754 semantics over the
embedding). -/
def fmul (x y : PyFloat) : PyFloat :=
  match x, y with
  | .finite p, .finite q => roundF (p * q)
  | .nan, _ | _, .nan => .nan
  | .inf, .inf | .negInf, .negInf => .inf
  | .inf, .negInf | .negInf, .inf => .negInf
  | .inf, .finite q | .finite q, .inf =>
      if q = 0 then .nan else if 0 < q then .inf else .negInf
  | .negInf, .finite q | .finite q, .negInf =>
      if q = 0 then .nan else if 0 < q then .negInf else .inf

/-- Python float division `a / b` for a nonzero divisor (IEEE-754 semantics
over the embedding).  A zero finite divisor would raise
`ZeroDivisionError` in Python; `compute` guards `b == 0` before dividing,
so that case is unreachable and is mapped to `nan` here. -/
def fdiv (x y : PyFloat) : PyFloat :=
  match x, y with
  | .finite p, .finite q => if q = 0 then .nan else roundF (p / q)
  | .nan, _ | _, .nan => .nan
  | .inf, .inf | .inf, .negInf | .negInf, .inf | .negInf, .negInf => .nan
  | .inf, .finite q => if 0 ≤ q then .inf else .negInf
  | .negInf, .finite q => if 0 ≤ q then .negInf else .inf
  | .finite _, .inf | .finite _, .negInf => .finite 0

/-- The closed operator enumeration `Op` (`src/main.py` lines 33-37). -/
inductive Op where
  | add
  | sub
  | mul
  | div
deriving DecidableEq

/-- The string value of each `Op` member (`Op` is a `str` Enum). -/
def Op.toString : Op → String
  | .add => "add"
  | .sub => "sub"
  | .mul => "mul"
  | .div => "div"

/-- Coercion of a raw operator string into the `Op` enumeration, as FastAPI
performs at the boundary for the `op` query/path parameter: a string
outside the closed set is rejected (a 422 validation error). -/
def Op.fromString (s : String) : Option Op :=
  if s = "add" then some .add
  else if s = "sub" then some .sub
  else if s = "mul" then some .mul
  else if s = "div" then some .div
  else none

/-- The error taxonomy of the spec (§7): every failure the service reports
is one of these three caller-input errors.  In the source they surface as
HTTP 400/422 responses with distinct messages. -/
inductive EvalError where
  | InvalidOperand
  | UndefinedOperation
  | UnsupportedOperator
deriving DecidableEq

/-- The response model `OperationResponse` (`src/main.py` lines 40-44). -/
structure OperationResponse where
  a : PyFloat
  b : PyFloat
  operator : Op
  result : PyFloat
deriving DecidableEq

/-- Embedding of `compute` (`src/main.py` lines 50-62).  The dispatch on the
closed enumeration is total; the defensive `raise` on line 62 is
unreachable once `op` is a member of `Op` and corresponds to the `none`
case of `Op.fromString` at the boundary. -/
def compute (a b : PyFloat) (op : Op) : Except EvalError PyFloat :=
  match op with
  | .add => .ok (fadd a b)
  | .sub => .ok (fsub a b)
  | .mul => .ok (fmul a b)
  | .div =>
      if b = PyFloat.finite 0 then .error .UndefinedOperation
      else .ok (fdiv a b)

/-- The `Numbers` request model (`src/main.py` lines 20-30): two floats,
each validated by `must_be_finite`.  `parse` embeds pydantic validation of
an inbound body: a non-finite field raises `ValueError`, surfaced as an
`InvalidOperand` failure. -/
structure Numbers where
  a : PyFloat
  b : PyFloat
deriving DecidableEq

/-- Embedding of the `must_be_finite` field validator (`src/main.py`
lines 25-30). -/
def must_be_finite (v : PyFloat) : Except EvalError PyFloat :=
  if v.isfinite then .ok v else .error .InvalidOperand

/-- Embedding of pydantic validation of a `Numbers` body: both fields go
through `must_be_finite`. -/
def Numbers.parse (a b : PyFloat) : Except EvalError Numbers :=
  (must_be_finite a).bind fun a' =>
    (must_be_finite b).map fun b' => ⟨a', b'⟩

/-- Embedding of the `GET /calc` handler `calc_query` (`src/main.py`
lines 110-115): an explicit finiteness check, then `compute`, then the
response echoing `a`, `b` and `op`. -/
def calc_query (op : Op) (a b : PyFloat) : Except EvalError OperationResponse :=
  if !a.isfinite || !b.isfinite then .error .InvalidOperand
  else (compute a b op).map fun r => ⟨a, b, op, r⟩

/-- Embedding of the `POST /calc/{op}` handler `calc_body` (`src/main.py`
lines 122-125): the body is validated into `Numbers`, then `compute`, then
the response echoing the payload and `op`. -/
def calc_body (op : Op) (a b : PyFloat) : Except EvalError OperationResponse :=
  (Numbers.parse a b).bind fun p =>
    (compute p.a p.b op).map fun r => ⟨p.a, p.b, op, r⟩

/-- Embedding of the `POST /add` shortcut handler (`src/main.py`
lines 131-133). -/
def add (a b : PyFloat) : Except EvalError OperationResponse :=
  (Numbers.parse a b).bind fun p =>
    (compute p.a p.b Op.add).map fun r => ⟨p.a, p.b, Op.add, r⟩

/-- Embedding of the `POST /sub` shortcut handler (`src/main.py`
lines 136-138). -/
def sub (a b : PyFloat) : Except EvalError OperationResponse :=
  (Numbers.parse a b).bind fun p =>
    (compute p.a p.b Op.sub).map fun r => ⟨p.a, p.b, Op.sub, r⟩

/-- Embedding of the `POST /mul` shortcut handler (`src/main.py`
lines 141-143). -/
def mul (a b : PyFloat) : Except EvalError OperationResponse :=
  (Numbers.parse a b).bind fun p =>
    (compute p.a p.b Op.mul).map fun r => ⟨p.a, p.b, Op.mul, r⟩

/-- Embedding of the `POST /div` shortcut handler (`src/main.py`
lines 146-148). -/
def div (a b : PyFloat) : Except EvalError OperationResponse :=
  (Numbers.parse a b).bind fun p =>
    (compute p.a p.b Op.div).map fun r => ⟨p.a, p.b, Op.div, r⟩

/-- The spec's external interface `evaluate(a, b, operator)` (§6),
implemented by the `GET /calc` pipeline: FastAPI coerces the raw operator
string into the `Op` enumeration (an unrecognised string is rejected at
parse time, before the handler runs), then `calc_query` handles the
request. -/
def evaluate (a b : PyFloat) (opStr : String) : Except EvalError OperationResponse :=
  match Op.fromString opStr with
  | none => .error .UnsupportedOperator
  | some op => calc_query op a b

/-- Evaluation of `Op.fromString` on the member string `add`. -/
theorem Op.fromString_add : Op.fromString "add" = some Op.add := by decide

/-- Evaluation of `Op.fromString` on the member string `sub`. -/
theorem Op.fromString_sub : Op.fromString "sub" = some Op.sub := by decide

/-- Evaluation of `Op.fromString` on the member string `mul`. -/
theorem Op.fromString_mul : Op.fromString "mul" = some Op.mul := by decide

/-- Evaluation of `Op.fromString` on the member string `div`. -/
theorem Op.fromString_div : Op.fromString "div" = some Op.div := by decide

/-- The string `mod` is outside the closed operator set. -/
theorem Op.fromString_mod : Op.fromString "mod" = none := by decide

/-- On two finite operands, `evaluate` with the member string `add` succeeds
with the response echoing both operands and carrying the float sum. -/
theorem evaluate_add (a b : ℚ) :
    evaluate (.finite a) (.finite b) "add"
      = .ok ⟨.finite a, .finite b, .add, roundF (a + b)⟩ := rfl

/-- On two finite operands, `evaluate` with the member string `sub` succeeds
with the response echoing both operands and carrying the float difference. -/
theorem evaluate_sub (a b : ℚ) :
    evaluate (.finite a) (.finite b) "sub"
      = .ok ⟨.finite a, .finite b, .sub, roundF (a - b)⟩ := by
  rw [sub_eq_add_neg]
  rfl

/-- On two finite operands, `evaluate` with the member string `mul` succeeds
with the response echoing both operands and carrying the float product. -/
theorem evaluate_mul (a b : ℚ) :
    evaluate (.finite a) (.finite b) "mul"
      = .ok ⟨.finite a, .finite b, .mul, roundF (a * b)⟩ := rfl

/-- On two finite operands with a nonzero divisor, `evaluate` with the
member string `div` succeeds with the response carrying the float
quotient. -/
theorem evaluate_div (a b : ℚ) (h : b ≠ 0) :
    evaluate (.finite a) (.finite b) "div"
      = .ok ⟨.finite a, .finite b, .div, roundF (a / b)⟩ := by
  simp [evaluate, Op.fromString_div, calc_query, compute, PyFloat.isfinite,
    fdiv, h, Except.map]

/-- A mapped `Except` computation succeeds exactly when the underlying one
does, with the mapped value. -/
theorem ok_of_map {α β ε : Type} {f : α → β} {x : Except ε α} {r : β}
    (h : x.map f = .ok r) : ∃ v, x = .ok v ∧ r = f v := by
  cases x with
  | ok v => exact ⟨v, rfl, by simpa [Except.map] using h.symm⟩
  | error e => simp [Except.map] at h

/-- A bound `Except` computation succeeds only through a success of the
first stage. -/
theorem ok_of_bind {α β ε : Type} {g : α → Except ε β} {x : Except ε α}
    {r : β} (h : x.bind g = .ok r) : ∃ v, x = .ok v ∧ g v = .ok r := by
  cases x with
  | ok v => exact ⟨v, rfl, by simpa [Except.bind] using h⟩
  | error e => simp [Except.bind] at h

/-- `Numbers.parse` never alters the operands: a successful parse returns
exactly the inbound pair. -/
theorem Numbers.parse_ok {a b : PyFloat} {p : Numbers}
    (h : Numbers.parse a b = .ok p) : p = ⟨a, b⟩ := by
  unfold Numbers.parse must_be_finite at h
  by_cases ha : a.isfinite <;> by_cases hb : b.isfinite <;>
    simp [ha, hb, Except.bind, Except.map] at h
  exact h.symm

end Main

/-- C1: for every pair of finite floats `a` and `b`, evaluation with
operator `add` succeeds with result `a + b`, with `sub` with result
`a - b`, and with `mul` with result `a * b`, under the arithmetic
semantics of the numeric representation; concretely,
`evaluate(3, 5, "add")` succeeds with result `8` and
`evaluate(2.5, 4, "mul")` succeeds with result `10`. -/
theorem c1_basic_ops_exact :
    (∀ a b : ℚ, Main.evaluate (.finite a) (.finite b) "add"
        = .ok ⟨.finite a, .finite b, .add, Main.roundF (a + b)⟩) ∧
    (∀ a b : ℚ, Main.evaluate (.finite a) (.finite b) "sub"
        = .ok ⟨.finite a, .finite b, .sub, Main.roundF (a - b)⟩) ∧
    (∀ a b : ℚ, Main.evaluate (.finite a) (.finite b) "mul"
        = .ok ⟨.finite a, .finite b, .mul, Main.roundF (a * b)⟩) ∧
    Main.evaluate (.finite 3) (.finite 5) "add"
        = .ok ⟨.finite 3, .finite 5, .add, .finite 8⟩ ∧
    Main.evaluate (.finite (5/2)) (.finite 4) "mul"
        = .ok ⟨.finite (5/2), .finite 4, .mul, .finite 10⟩ := by
  refine ⟨Main.evaluate_add, Main.evaluate_sub, Main.evaluate_mul, ?_, ?_⟩
  · rw [Main.evaluate_add]
    norm_num [Main.roundF, Main.overflowBound]
  · rw [Main.evaluate_mul]
    norm_num [Main.roundF, Main.overflowBound]

/-- C2: for every pair of finite floats `a` and `b` with `b ≠ 0` (however
close to zero), evaluation with operator `div` succeeds and returns
`a / b`; the zero check is an exact-equality test, not a nearness test. -/
theorem c2_div_nonzero (a b : ℚ) (h : b ≠ 0) :
    Main.evaluate (.finite a) (.finite b) "div"
      = .ok ⟨.finite a, .finite b, .div, Main.roundF (a / b)⟩ :=
  Main.evaluate_div a b h

/-- Witness for C2 at `a = 10` and the tiny nonzero divisor
`b = 1 / 10 ^ 300`. -/
theorem c2_div_nonzero_witness :
    (1 / 10 ^ 300 : ℚ) ≠ 0 ∧
    Main.evaluate (.finite 10) (.finite (1 / 10 ^ 300)) "div"
      = .ok ⟨.finite 10, .finite (1 / 10 ^ 300), .div,
          Main.roundF (10 / (1 / 10 ^ 300))⟩ :=
  ⟨by norm_num, c2_div_nonzero 10 (1 / 10 ^ 300) (by norm_num)⟩

/-- C3: for every finite float `a`, evaluating `a, 0, "div"` fails with the
`UndefinedOperation` error kind, returned as a typed error. -/
theorem c3_div_by_zero (a : ℚ) :
    Main.evaluate (.finite a) (.finite 0) "div"
      = .error .UndefinedOperation := rfl

/-- Counterexample to C4 as stated: at the non-finite operand
`a = inf` with operator string `mod` (outside the closed set), `evaluate`
does not fail with `InvalidOperand` — operator validation happens at parse
time, before operand finiteness is checked, so the failure is
`UnsupportedOperator`. -/
theorem c4_counterexample :
    ¬ Main.evaluate .inf (.finite 5) "mod" = .error .InvalidOperand := by
  intro h
  rw [show Main.evaluate .inf (.finite 5) "mod"
        = .error .UnsupportedOperator from rfl] at h
  exact absurd (Except.error.inj h) (by intro hk; cases hk)

/-- C4 (amended): for every input where operand `a` or `b` is non-finite
and the operator string is one of the four supported ones, `evaluate`
fails with `InvalidOperand`, regardless of the other operand; the
rejection happens before any arithmetic is attempted. -/
theorem c4_invalid_operand (a b : Main.PyFloat) (s : String)
    (hop : (Main.Op.fromString s).isSome = true)
    (h : a.isfinite = false ∨ b.isfinite = false) :
    Main.evaluate a b s = .error .InvalidOperand := by
  unfold Main.evaluate
  cases hs : Main.Op.fromString s with
  | none => rw [hs] at hop; cases hop
  | some op =>
      unfold Main.calc_query
      rcases h with h | h <;> simp [h]

/-- Witness for C4 at `a = nan`, `b = 5`, operator `add`. -/
theorem c4_invalid_operand_witness :
    (Main.Op.fromString "add").isSome = true ∧
    Main.PyFloat.nan.isfinite = false ∧
    Main.evaluate .nan (.finite 5) "add" = .error .InvalidOperand :=
  ⟨by decide, rfl,
    c4_invalid_operand .nan (.finite 5) "add" (by decide) (Or.inl rfl)⟩

/-- C5: for every operator string outside the closed set
`{add, sub, mul, div}`, `evaluate` fails with the `UnsupportedOperator`
error kind, whatever the operands: there is no fallback arithmetic path. -/
theorem c5_unsupported_operator (a b : Main.PyFloat) (s : String)
    (h1 : s ≠ "add") (h2 : s ≠ "sub") (h3 : s ≠ "mul") (h4 : s ≠ "div") :
    Main.evaluate a b s = .error .UnsupportedOperator := by
  simp [Main.evaluate, Main.Op.fromString, h1, h2, h3, h4]

/-- Witness for C5 at the operator string `mod` with operands `3` and
`5`. -/
theorem c5_unsupported_operator_witness :
    ("mod" : String) ≠ "add" ∧ ("mod" : String) ≠ "sub" ∧
    ("mod" : String) ≠ "mul" ∧ ("mod" : String) ≠ "div" ∧
    Main.evaluate (.finite 3) (.finite 5) "mod"
      = .error .UnsupportedOperator :=
  ⟨by decide, by decide, by decide, by decide,
    c5_unsupported_operator (.finite 3) (.finite 5) "mod"
      (by decide) (by decide) (by decide) (by decide)⟩

/-- C6: on every entry point (`GET /calc`, `POST /calc/{op}`, and the four
shortcut endpoints), a successful response carries the operator that was
actually applied and echoes the operands unchanged. -/
theorem c6_response_echo :
    (∀ (op : Main.Op) (a b : Main.PyFloat) (r : Main.OperationResponse),
        Main.calc_query op a b = .ok r →
          r.operator = op ∧ r.a = a ∧ r.b = b) ∧
    (∀ (op : Main.Op) (a b : Main.PyFloat) (r : Main.OperationResponse),
        Main.calc_body op a b = .ok r →
          r.operator = op ∧ r.a = a ∧ r.b = b) ∧
    (∀ (a b : Main.PyFloat) (r : Main.OperationResponse),
        Main.add a b = .ok r → r.operator = .add ∧ r.a = a ∧ r.b = b) ∧
    (∀ (a b : Main.PyFloat) (r : Main.OperationResponse),
        Main.sub a b = .ok r → r.operator = .sub ∧ r.a = a ∧ r.b = b) ∧
    (∀ (a b : Main.PyFloat) (r : Main.OperationResponse),
        Main.mul a b = .ok r → r.operator = .mul ∧ r.a = a ∧ r.b = b) ∧
    (∀ (a b : Main.PyFloat) (r : Main.OperationResponse),
        Main.div a b = .ok r → r.operator = .div ∧ r.a = a ∧ r.b = b) := by
  have hq : ∀ (op : Main.Op) (a b : Main.PyFloat) (r : Main.OperationResponse),
      Main.calc_query op a b = .ok r → r.operator = op ∧ r.a = a ∧ r.b = b := by
    intro op a b r h
    unfold Main.calc_query at h
    split at h
    · cases h
    · obtain ⟨v, _, hr⟩ := Main.ok_of_map h
      subst hr
      exact ⟨rfl, rfl, rfl⟩
  have hb : ∀ (op : Main.Op) (a b : Main.PyFloat) (r : Main.OperationResponse),
      Main.calc_body op a b = .ok r → r.operator = op ∧ r.a = a ∧ r.b = b := by
    intro op a b r h
    unfold Main.calc_body at h
    obtain ⟨p, hp, hg⟩ := Main.ok_of_bind h
    obtain ⟨v, _, hr⟩ := Main.ok_of_map hg
    subst hr
    have := Main.Numbers.parse_ok hp
    subst this
    exact ⟨rfl, rfl, rfl⟩
  exact ⟨hq, hb,
    fun a b r h => hb .add a b r h,
    fun a b r h => hb .sub a b r h,
    fun a b r h => hb .mul a b r h,
    fun a b r h => hb .div a b r h⟩

/-- Witness for C6: the `GET /calc` handler on `op = add`, `a = 3`,
`b = 5`. -/
theorem c6_response_echo_witness :
    (⟨.finite 3, .finite 5, Main.Op.add,
        Main.fadd (.finite 3) (.finite 5)⟩ :
      Main.OperationResponse).operator = Main.Op.add ∧
    (⟨.finite 3, .finite 5, Main.Op.add,
        Main.fadd (.finite 3) (.finite 5)⟩ :
      Main.OperationResponse).a = .finite 3 ∧
    (⟨.finite 3, .finite 5, Main.Op.add,
        Main.fadd (.finite 3) (.finite 5)⟩ :
      Main.OperationResponse).b = .finite 5 :=
  c6_response_echo.1 Main.Op.add (.finite 3) (.finite 5)
    ⟨.finite 3, .finite 5, Main.Op.add, Main.fadd (.finite 3) (.finite 5)⟩ rfl

/-- C7: there are finite operands for which `mul` succeeds yet the result
is non-finite — the inputs' finiteness is validated, never the
result's.  Concretely `2 ^ 600 * 2 ^ 600` overflows to infinity. -/
theorem c7_overflow_to_inf :
    ∃ (a b : ℚ) (r : Main.OperationResponse),
      Main.evaluate (.finite a) (.finite b) "mul" = .ok r ∧
      r.result.isfinite = false := by
  refine ⟨2 ^ 600, 2 ^ 600,
    ⟨.finite (2 ^ 600), .finite (2 ^ 600), .mul, .inf⟩, ?_, rfl⟩
  rw [Main.evaluate_mul]
  norm_num [Main.roundF, Main.overflowBound]

/-- C8: the evaluator is deterministic — two calls on identical inputs
yield identical outputs; it is modelled as a pure function of its three
inputs, with no state threaded through. -/
theorem c8_deterministic (a b : Main.PyFloat) (s : String)
    (r₁ r₂ : Except Main.EvalError Main.OperationResponse)
    (h₁ : Main.evaluate a b s = r₁) (h₂ : Main.evaluate a b s = r₂) :
    r₁ = r₂ := h₁ ▸ h₂ ▸ rfl

/-- Witness for C8 at `a = 3`, `b = 5`, operator `add`. -/
theorem c8_deterministic_witness :
    Main.evaluate (.finite 3) (.finite 5) "add"
      = .ok ⟨.finite 3, .finite 5, Main.Op.add,
          Main.fadd (.finite 3) (.finite 5)⟩ :=
  c8_deterministic (.finite 3) (.finite 5) "add"
    (Main.evaluate (.finite 3) (.finite 5) "add")
    (.ok ⟨.finite 3, .finite 5, Main.Op.add,
      Main.fadd (.finite 3) (.finite 5)⟩) rfl rfl

/-- C9: for every pair of finite floats, the results of `add` and of `mul`
are unchanged when the operands are swapped. -/
theorem c9_commutative (a b : ℚ) :
    (Main.evaluate (.finite a) (.finite b) "add").map
        Main.OperationResponse.result
      = (Main.evaluate (.finite b) (.finite a) "add").map
          Main.OperationResponse.result ∧
    (Main.evaluate (.finite a) (.finite b) "mul").map
        Main.OperationResponse.result
      = (Main.evaluate (.finite b) (.finite a) "mul").map
          Main.OperationResponse.result := by
  constructor
  · rw [Main.evaluate_add, Main.evaluate_add, add_comm]
    simp [Except.map]
  · rw [Main.evaluate_mul, Main.evaluate_mul, mul_comm]
    simp [Except.map]

/-- C10: each shortcut endpoint `POST /add`, `/sub`, `/mul`, `/div` is
behaviorally equivalent to `POST /calc/{op}` with the corresponding
operator: on every payload the two produce the same success response or
the same error. -/
theorem c10_shortcut_equiv (a b : Main.PyFloat) :
    Main.add a b = Main.calc_body .add a b ∧
    Main.sub a b = Main.calc_body .sub a b ∧
    Main.mul a b = Main.calc_body .mul a b ∧
    Main.div a b = Main.calc_body .div a b :=
  ⟨rfl, rfl, rfl, rfl⟩
